import Mathlib

/-!  Shallow embedding of the NYC Yellow Taxi cleaning pipeline
(`datacleaning.py`, function `clean`) and of its independent verification pass
(`scripts/verify_cleaning.py`, function `main`).

Modelling conventions, matching pandas nullable semantics in the source:
* nullable numeric columns are `Option ℚ` / `Option Int` (`none` is `pd.NA`);
* the two timestamp columns are `Option ℚ`, seconds since an arbitrary epoch
  (`none` is `NaT`); `tpep_dropoff_datetime < tpep_pickup_datetime` is false
  when either side is `NaT`, exactly as for `datetime64` comparisons;
* a comparison such as `series <= 1440` is false at a missing value, so a
  filter on it drops the row (`NaN <= x` is `False`); `isin` is false at a
  missing value; a missing entry in a boolean mask used with `.loc` selects
  nothing (pandas treats `pd.NA` as `False` in masks);
* `Series.round(5)` is round-half-to-even at five decimal places;
* a dataframe is a `List Row` in row order; every source stage is elementwise,
  so each is a `List.filter` or `List.map` of a per-row function. -/

/-  Core marks the `Rat` field operations irreducible, which blocks `decide`
on concrete rational computations; re-opening them is harmless here (the
kernel re-checks every proof) and lets witnesses evaluate by `decide`. -/
set_option allowUnsafeReducibility true

attribute [semireducible] Rat.add Rat.sub Rat.mul Rat.div Rat.neg Rat.inv Rat.blt

structure Row where
  VendorID : Option Int
  tpep_pickup_datetime : Option ℚ
  tpep_dropoff_datetime : Option ℚ
  passenger_count : Option ℚ
  trip_distance : Option ℚ
  RatecodeID : Option ℚ
  store_and_fwd_flag : Option String
  PULocationID : Option Int
  DOLocationID : Option Int
  payment_type : Option Int
  fare_amount : Option ℚ
  extra : Option ℚ
  mta_tax : Option ℚ
  tip_amount : Option ℚ
  tolls_amount : Option ℚ
  improvement_surcharge : Option ℚ
  total_amount : Option ℚ
  congestion_surcharge : Option ℚ
  airport_fee : Option ℚ
  trip_duration_min : Option ℚ := none
  PU_Borough : Option String := none
  PU_Zone : Option String := none
  PU_service_zone : Option String := none
  DO_Borough : Option String := none
  DO_Zone : Option String := none
  DO_service_zone : Option String := none
deriving DecidableEq, Repr

/-- One record of `Docs/taxi_zone_lookup.csv` (columns `LocationID`,
`Borough`, `Zone`, `service_zone`). -/
structure ZoneRec where
  LocationID : Int
  Borough : Option String
  Zone : Option String
  service_zone : Option String
deriving DecidableEq, Repr

/-- Stage 1 flag normalization: uppercase `store_and_fwd_flag`, null anything
outside `{Y, N}` (`df.loc[~isin(["Y","N"])] = pd.NA`). -/
def normFlag (r : Row) : Row :=
  match r.store_and_fwd_flag with
  | none => r
  | some s =>
      let u := s.toUpper
      if u = "Y" ∨ u = "N" then { r with store_and_fwd_flag := some u }
      else { r with store_and_fwd_flag := none }

/-- Stage 2 row predicate: `df["VendorID"].isin([1, 2]) | df["VendorID"].isna()`. -/
def vendorKeep (r : Row) : Bool :=
  match r.VendorID with
  | none => true
  | some v => decide (v = 1 ∨ v = 2)

def vendorFilter (df : List Row) : List Row := df.filter vendorKeep

/-- Ratecode nulling: `df.loc[~isin([1..6]) & notna(), "RatecodeID"] = pd.NA`. -/
def ratecodeNull (r : Row) : Row :=
  match r.RatecodeID with
  | none => r
  | some v =>
      if v = 1 ∨ v = 2 ∨ v = 3 ∨ v = 4 ∨ v = 5 ∨ v = 6 then r
      else { r with RatecodeID := none }

/-- `df.loc[df["payment_type"].eq(0), "payment_type"] = pd.NA` (an `NA`
entry of the `.eq(0)` mask selects nothing). -/
def paymentZeroNull (r : Row) : Row :=
  if r.payment_type = some 0 then { r with payment_type := none } else r

/-- `bad_order = dropoff < pickup`; false when either timestamp is `NaT`. -/
def badOrder (r : Row) : Bool :=
  match r.tpep_pickup_datetime, r.tpep_dropoff_datetime with
  | some p, some d => decide (d < p)
  | _, _ => false

def orderFilter (df : List Row) : List Row := df.filter fun r => !badOrder r

/-- `trip_duration_min = (dropoff - pickup).dt.total_seconds() / 60`;
`NaT` on either side yields a missing duration. -/
def computeDuration (r : Row) : Row :=
  { r with trip_duration_min :=
      match r.tpep_pickup_datetime, r.tpep_dropoff_datetime with
      | some p, some d => some ((d - p) / 60)
      | _, _ => none }

/-- `df[df["trip_duration_min"] <= 24 * 60]`: a missing duration compares
false (`NaN <= 1440` is `False`), so such rows are dropped. -/
def durationKeep (r : Row) : Bool :=
  match r.trip_duration_min with
  | some m => decide (m ≤ 24 * 60)
  | none => false

def durationFilter (df : List Row) : List Row := df.filter durationKeep

/-- Round-half-to-even to an integer, as `numpy`/pandas `round` does. -/
def roundHalfEven (q : ℚ) : Int :=
  let n := ⌊q⌋
  if q - n < 1/2 then n
  else if 1/2 < q - n then n + 1
  else if n % 2 = 0 then n else n + 1

/-- `Series.round(5)`. -/
def round5 (q : ℚ) : ℚ := (roundHalfEven (q * 100000) : ℚ) / 100000

/-- `~(duration.fillna(0).round(5).eq(0) & distance.fillna(0).round(5).eq(0))`. -/
def zeroZeroKeep (r : Row) : Bool :=
  !(decide (round5 ((r.trip_duration_min).getD 0) = 0)
    && decide (round5 ((r.trip_distance).getD 0) = 0))

def zeroZeroFilter (df : List Row) : List Row := df.filter zeroZeroKeep

/-- `df["trip_distance"].isna() | (df["trip_distance"] >= 0)`. -/
def negDistKeep (r : Row) : Bool :=
  match r.trip_distance with
  | none => true
  | some d => decide (0 ≤ d)

def negDistFilter (df : List Row) : List Row := df.filter negDistKeep

/-- `df["trip_distance"].isna() | (df["trip_distance"] <= 200)`. -/
def bigDistKeep (r : Row) : Bool :=
  match r.trip_distance with
  | none => true
  | some d => decide (d ≤ 200)

def bigDistFilter (df : List Row) : List Row := df.filter bigDistKeep

/-- Per-field negative-component nulling: `df.loc[df[col] < 0, col] = pd.NA`
(an `NA` entry of the `< 0` mask selects nothing, so `NA` stays `NA`). -/
def nnnComp (v : Option ℚ) : Option ℚ :=
  match v with
  | none => none
  | some x => if x < 0 then none else some x

/-- The stage-9 loop runs over the seven surcharge columns only
(`extra` .. `airport_fee`); `fare_amount` is not in the list. -/
def nullNegComponents (r : Row) : Row :=
  { r with
      extra := nnnComp r.extra
      mta_tax := nnnComp r.mta_tax
      tip_amount := nnnComp r.tip_amount
      tolls_amount := nnnComp r.tolls_amount
      improvement_surcharge := nnnComp r.improvement_surcharge
      congestion_surcharge := nnnComp r.congestion_surcharge
      airport_fee := nnnComp r.airport_fee }

/-- `(~df["payment_type"].isin([4, 6])).fillna(False)`: `isin` is false at a
missing value, so a null payment type gives `True` (non-adjustment). -/
def nonAdjustment (r : Row) : Bool :=
  !decide (r.payment_type = some 4 ∨ r.payment_type = some 6)

/-- `(fare.isna() | (fare >= 0)) | ~non_adj`. -/
def fareKeep (r : Row) : Bool :=
  (match r.fare_amount with
   | none => true
   | some f => decide (0 ≤ f)) || !nonAdjustment r

def fareFilter (df : List Row) : List Row := df.filter fareKeep

/-- `(total.isna() | (total >= 0)) | ~non_adj`; the source recomputes the
`non_adj` mask on the surviving rows, which elementwise is the same
predicate. -/
def totalKeep (r : Row) : Bool :=
  (match r.total_amount with
   | none => true
   | some t => decide (0 ≤ t)) || !nonAdjustment r

def totalFilter (df : List Row) : List Row := df.filter totalKeep

/-- `_coalesce_sum`: fold with `result = result.add(s.fillna(0), fill_value=0)`.
The addend is always non-missing after `fillna(0)`, so from the second series
on every position is filled (missing `result` entries become `0`). -/
def coalesce_sum : List (Option ℚ) → Option ℚ
  | [] => none
  | v :: vs => vs.foldl (fun acc s => some (acc.getD 0 + s.getD 0)) v

/-- The stage-11 recomputed total over the eight monetary components. -/
def computedTotal (r : Row) : Option ℚ :=
  coalesce_sum [r.fare_amount, r.extra, r.mta_tax, r.tip_amount, r.tolls_amount,
                r.improvement_surcharge, r.congestion_surcharge, r.airport_fee]

/-- `mismatch = (total - computed).abs() > 0.01`, `NA` treated as `False` in
the `.loc` mask; mismatching rows get `total_amount` replaced by the
computed total. -/
def newTotal (r : Row) : Option ℚ :=
  match r.total_amount, computedTotal r with
  | some t, some c => if 1/100 < |t - c| then some c else some t
  | t, _ => t

def reconcileTotal (r : Row) : Row := { r with total_amount := newTotal r }

/-- Passenger capping: `< 0 -> NA`, `> 6 -> NA` (`NA` mask entries select
nothing, so `NA` stays `NA`). -/
def capP (v : Option ℚ) : Option ℚ :=
  match v with
  | none => none
  | some p => if p < 0 then none else if 6 < p then none else some p

def capPassenger (r : Row) : Row := { r with passenger_count := capP r.passenger_count }

/-- The eight-column `drop_duplicates` subset, in source order.  pandas
`duplicated` treats missing values as equal, which `Option` equality gives. -/
structure DKey where
  kVendor : Option Int
  kPickup : Option ℚ
  kDropoff : Option ℚ
  kPULoc : Option Int
  kDOLoc : Option Int
  kDistance : Option ℚ
  kFare : Option ℚ
  kPayment : Option Int
deriving DecidableEq, Repr

def dedupKey (r : Row) : DKey :=
  ⟨r.VendorID, r.tpep_pickup_datetime, r.tpep_dropoff_datetime, r.PULocationID,
   r.DOLocationID, r.trip_distance, r.fare_amount, r.payment_type⟩

/-- `drop_duplicates(subset=subset, keep="first")`: keep a row iff its key has
not occurred earlier. -/
def dedupAux : List DKey → List Row → List Row
  | _, [] => []
  | seen, r :: rs =>
      if dedupKey r ∈ seen then dedupAux seen rs
      else r :: dedupAux (dedupKey r :: seen) rs

def dropDuplicates (df : List Row) : List Row := dedupAux [] df

def withPU (r : Row) (b z s : Option String) : Row :=
  { r with PU_Borough := b, PU_Zone := z, PU_service_zone := s }

def withDO (r : Row) (b z s : Option String) : Row :=
  { r with DO_Borough := b, DO_Zone := z, DO_service_zone := s }

def puMatches (zones : List ZoneRec) (r : Row) : List ZoneRec :=
  zones.filter fun z => decide (r.PULocationID = some z.LocationID)

def doMatches (zones : List ZoneRec) (r : Row) : List ZoneRec :=
  zones.filter fun z => decide (r.DOLocationID = some z.LocationID)

/-- One left row of `df.merge(pu, on="PULocationID", how="left")`: no match
keeps the row with missing zone columns, k matches emit k rows. -/
def joinRowPU (zones : List ZoneRec) (r : Row) : List Row :=
  if puMatches zones r = [] then [withPU r none none none]
  else (puMatches zones r).map fun z => withPU r z.Borough z.Zone z.service_zone

def joinPU : List Row → List ZoneRec → List Row
  | [], _ => []
  | r :: rs, zones => joinRowPU zones r ++ joinPU rs zones

def joinRowDO (zones : List ZoneRec) (r : Row) : List Row :=
  if doMatches zones r = [] then [withDO r none none none]
  else (doMatches zones r).map fun z => withDO r z.Borough z.Zone z.service_zone

def joinDO : List Row → List ZoneRec → List Row
  | [], _ => []
  | r :: rs, zones => joinRowDO zones r ++ joinDO rs zones

/-- `unmapped = df["PU_Zone"].isna() | df["DO_Zone"].isna(); df = df[~unmapped]`. -/
def unmappedKeep (r : Row) : Bool := r.PU_Zone.isSome && r.DO_Zone.isSome

def unmappedFilter (df : List Row) : List Row := df.filter unmappedKeep

/-!  The pipeline of `clean()`, stage by stage, in source order.  The stage-1
numeric coercions (`pd.to_numeric(..., errors="coerce")`) are identities here
because the columns are already `Option ℚ`; the final `astype` cast block is a
representation change with no value content. -/

def afterVendor (df : List Row) : List Row := vendorFilter (df.map normFlag)

def afterDomain (df : List Row) : List Row :=
  ((afterVendor df).map ratecodeNull).map paymentZeroNull

def afterOrder (df : List Row) : List Row := orderFilter (afterDomain df)

def afterDuration (df : List Row) : List Row :=
  durationFilter ((afterOrder df).map computeDuration)

def afterZeroZero (df : List Row) : List Row := zeroZeroFilter (afterDuration df)

def afterDistance (df : List Row) : List Row :=
  bigDistFilter (negDistFilter (afterZeroZero df))

def afterComponents (df : List Row) : List Row :=
  (afterDistance df).map nullNegComponents

def afterFareTotal (df : List Row) : List Row :=
  totalFilter (fareFilter (afterComponents df))

def afterReconcile (df : List Row) : List Row :=
  (afterFareTotal df).map reconcileTotal

def afterPassenger (df : List Row) : List Row :=
  (afterReconcile df).map capPassenger

def ruleEngine (df : List Row) : List Row := dropDuplicates (afterPassenger df)

def zoneJoined (df : List Row) (zones : List ZoneRec) : List Row :=
  joinDO (joinPU (ruleEngine df) zones) zones

/-- The rows of `NYC_YELLOW_TAXI_CLEAN.csv`. -/
def cleanRows (df : List Row) (zones : List ZoneRec) : List Row :=
  unmappedFilter (zoneJoined df zones)

/-- The spec's name for the fatal failure of `_read_inputs` (the raw file
cannot be located or parsed as tabular data). -/
inductive DataSourceError
  | unreadableRaw
deriving DecidableEq, Repr

/-- The two artifacts `clean()` writes on success: the clean dataset and the
cleaning report (represented by its terminating final row count). -/
structure CleanArtifacts where
  clean_csv : List Row
  report_final_rows : Nat
deriving DecidableEq, Repr

/-- `clean()` as a fallible run: `_read_inputs()` is its first statement, so a
raw source that cannot be read (`none`) aborts before any stage, and both
output writes happen only on success.  The unreadable source is the `Option`
parameter; the abort is the `Except.error`. -/
def runPipeline (raw : Option (List Row)) (zones : List ZoneRec) :
    Except DataSourceError CleanArtifacts :=
  match raw with
  | none => Except.error DataSourceError.unreadableRaw
  | some df => Except.ok ⟨cleanRows df zones, (cleanRows df zones).length⟩

/-!  The Verifier (`scripts/verify_cleaning.py`): each check is the source
predicate over the clean rows.  The CSV round trip is value-faithful; the
dtype changes it causes (nullable to float) do not change any predicate
below, since `isin` and ordered comparisons are false at missing values in
both representations. -/

/-- `df["VendorID"].isin([1, 2]).all()` - note: no `isna()` escape. -/
def vendor_valid (df : List Row) : Bool :=
  df.all fun r =>
    match r.VendorID with
    | some v => decide (v = 1 ∨ v = 2)
    | none => false

def ratecode_valid (df : List Row) : Bool :=
  df.all fun r =>
    match r.RatecodeID with
    | none => true
    | some v => decide (v = 1 ∨ v = 2 ∨ v = 3 ∨ v = 4 ∨ v = 5 ∨ v = 6)

def payment_valid (df : List Row) : Bool :=
  df.all fun r =>
    match r.payment_type with
    | none => true
    | some v => decide (v = 1 ∨ v = 2 ∨ v = 3 ∨ v = 4 ∨ v = 5 ∨ v = 6)

def saf_valid (df : List Row) : Bool :=
  df.all fun r =>
    match r.store_and_fwd_flag with
    | none => true
    | some s => decide (s = "Y" ∨ s = "N")

/-- `((df["trip_distance"] >= 0) & (df["trip_distance"] <= 200)).all()` -
no `isna()` escape, so a missing distance fails. -/
def distance_range (df : List Row) : Bool :=
  df.all fun r =>
    match r.trip_distance with
    | some d => decide (0 ≤ d ∧ d ≤ 200)
    | none => false

def drop_ge_pick (df : List Row) : Bool :=
  df.all fun r =>
    match r.tpep_pickup_datetime, r.tpep_dropoff_datetime with
    | some p, some d => decide (p ≤ d)
    | _, _ => false

def dur_le_24h (df : List Row) : Bool :=
  df.all fun r =>
    match r.trip_duration_min with
    | some m => decide (m ≤ 24 * 60)
    | none => false

def zero_min_distance_positive (df : List Row) : Bool :=
  df.all fun r =>
    !(match r.trip_duration_min with
      | some m => decide (round5 m = 0)
      | none => false)
    || (match r.trip_distance with
        | some d => decide (0 < round5 d)
        | none => false)

/-- `(df.loc[non_adj, "fare_amount"] >= 0).all()`: a missing fare on a
non-adjustment row compares false, hence fails. -/
def fare_nonneg_when_not_adjust (df : List Row) : Bool :=
  df.all fun r =>
    !nonAdjustment r ||
      (match r.fare_amount with
       | some f => decide (0 ≤ f)
       | none => false)

def total_nonneg_when_not_adjust (df : List Row) : Bool :=
  df.all fun r =>
    !nonAdjustment r ||
      (match r.total_amount with
       | some t => decide (0 ≤ t)
       | none => false)

/-- The verifier's recomputed component sum: every component `fillna(0)`. -/
def sumComponents (r : Row) : ℚ :=
  r.fare_amount.getD 0 + r.extra.getD 0 + r.mta_tax.getD 0 + r.tip_amount.getD 0 +
  r.tolls_amount.getD 0 + r.improvement_surcharge.getD 0 +
  r.congestion_surcharge.getD 0 + r.airport_fee.getD 0

def total_matches_components (df : List Row) : Bool :=
  df.all fun r => decide (|r.total_amount.getD 0 - sumComponents r| ≤ 1/100)

def pu_zone_present (df : List Row) : Bool := df.all fun r => r.PU_Zone.isSome

def do_zone_present (df : List Row) : Bool := df.all fun r => r.DO_Zone.isSome

/-- The conjunction of every PASS/FAIL check `verify_cleaning.py` records. -/
def allChecks (df : List Row) : Bool :=
  vendor_valid df && ratecode_valid df && payment_valid df && saf_valid df &&
  distance_range df && drop_ge_pick df && dur_le_24h df &&
  zero_min_distance_positive df && fare_nonneg_when_not_adjust df &&
  total_nonneg_when_not_adjust df && total_matches_components df &&
  pu_zone_present df && do_zone_present df

/-!  Concrete data for witnesses and counterexamples. -/

def zoneA : ZoneRec := ⟨1, some "Manhattan", some "Alpha", some "Yellow"⟩

def zoneB : ZoneRec := ⟨2, some "Queens", some "Beta", some "Boro"⟩

def zonesEx : List ZoneRec := [zoneA, zoneB]

def zoneA2 : ZoneRec := ⟨1, some "Manhattan", some "Gamma", some "Yellow"⟩

/-- A zone reference with two records for `LocationID = 1`. -/
def zonesDup : List ZoneRec := [zoneA, zoneA2]

/-- A valid raw trip row: ten minutes, one mile, card payment, every
invariant satisfied (the store-and-forward flag is left absent, which is
valid, so that concrete runs avoid `String.toUpper`). -/
def baseRow : Row where
  VendorID := some 1
  tpep_pickup_datetime := some 0
  tpep_dropoff_datetime := some 600
  passenger_count := some 1
  trip_distance := some 1
  RatecodeID := some 1
  store_and_fwd_flag := none
  PULocationID := some 1
  DOLocationID := some 2
  payment_type := some 1
  fare_amount := some 10
  extra := some 0
  mta_tax := some 0
  tip_amount := some 0
  tolls_amount := some 0
  improvement_surcharge := some 0
  total_amount := some 10
  congestion_surcharge := some 0
  airport_fee := some 0

/-- `baseRow` as the pipeline outputs it: duration computed, zones joined. -/
def outBase : Row :=
  { baseRow with
      trip_duration_min := some 10
      PU_Borough := some "Manhattan"
      PU_Zone := some "Alpha"
      PU_service_zone := some "Yellow"
      DO_Borough := some "Queens"
      DO_Zone := some "Beta"
      DO_service_zone := some "Boro" }

/-- A raw row whose `VendorID` is missing and which is otherwise fully valid. -/
def rowVnull : Row := { baseRow with VendorID := none }

/-- A raw row whose dropoff timestamp is `NaT`. -/
def rowNaT : Row := { baseRow with tpep_dropoff_datetime := none }

/-- A raw row with all eight monetary components missing. -/
def rowNullComps : Row :=
  { baseRow with
      fare_amount := none, extra := none, mta_tax := none, tip_amount := none,
      tolls_amount := none, improvement_surcharge := none,
      congestion_surcharge := none, airport_fee := none }

/-- A raw adjustment trip (disputed payment) with a negative fare. -/
def rowAdj : Row :=
  { baseRow with payment_type := some 4, fare_amount := some (-5),
                 total_amount := some (-5) }

/-- A raw row with a missing total and a 100-unit fare. -/
def rowTnull : Row := { baseRow with total_amount := none, fare_amount := some 100 }

/-- A raw row with missing `VendorID`, distance and duration. -/
def rowWnull : Row :=
  { baseRow with VendorID := none, trip_distance := none, trip_duration_min := none }

/-- A raw row with a missing payment type. -/
def rowPnull : Row := { baseRow with payment_type := none }

theorem computedTotal_eq_sum (r : Row) : computedTotal r = some (sumComponents r) := rfl

/-- C1: the claim that the Verifier reports PASS on everything the cleaner
outputs fails in the code: the cleaner deliberately keeps a row with missing
`VendorID`, but `vendor_valid` is `isin([1,2]).all()` with no `isna()` escape,
so that check (and hence the full verification) reports FAIL; on a cleaned
dataset without missing values every check passes. -/
theorem C1_verifier_fails_on_null_vendor :
    (cleanRows [rowVnull] zonesEx).length = 1 ∧
    vendor_valid (cleanRows [rowVnull] zonesEx) = false ∧
    allChecks (cleanRows [rowVnull] zonesEx) = false ∧
    allChecks (cleanRows [baseRow] zonesEx) = true := by decide

/-- C2 counterexample: a row whose computed `trip_duration_min` is missing
(dropoff timestamp `NaT`) IS dropped by the duration-greater-than-24h stage
(`NaN <= 1440` is false), and such a row never reaches the clean output -
contradicting the claim that this filter passes rows with a null duration. -/
theorem C2_null_duration_dropped :
    (computeDuration rowNaT).trip_duration_min = none ∧
    computeDuration rowNaT ∉ durationFilter [computeDuration rowNaT] ∧
    durationFilter [computeDuration rowNaT] = [] ∧
    cleanRows [rowNaT] zonesEx = [] := by decide

/-- C2 amended: the vendor stage and both distance-range stages do pass rows
where the filtered field is null, and the nulling rules (rate code, payment
type, passenger count, negative monetary components) retain every row; but
the duration stage drops a row whose `trip_duration_min` is null. -/
theorem C2_null_policy_amended (df : List Row) (r : Row) (hr : r ∈ df) :
    (r.VendorID = none → r ∈ vendorFilter df) ∧
    (r.trip_distance = none → r ∈ negDistFilter df ∧ r ∈ bigDistFilter df) ∧
    (r.trip_duration_min = none → r ∉ durationFilter df) ∧
    (df.map ratecodeNull).length = df.length ∧
    (df.map paymentZeroNull).length = df.length ∧
    (df.map capPassenger).length = df.length ∧
    (df.map nullNegComponents).length = df.length := by
  refine ⟨?_, ?_, ?_, by simp, by simp, by simp, by simp⟩
  · intro h
    exact List.mem_filter.mpr ⟨hr, by simp [vendorKeep, h]⟩
  · intro h
    exact ⟨List.mem_filter.mpr ⟨hr, by simp [negDistKeep, h]⟩,
           List.mem_filter.mpr ⟨hr, by simp [bigDistKeep, h]⟩⟩
  · intro h hmem
    have hk := (List.mem_filter.mp hmem).2
    simp [durationKeep, h] at hk

theorem C2_null_policy_witness :
    (rowWnull.VendorID = none → rowWnull ∈ vendorFilter [rowWnull]) ∧
    (rowWnull.trip_distance = none →
      rowWnull ∈ negDistFilter [rowWnull] ∧ rowWnull ∈ bigDistFilter [rowWnull]) ∧
    (rowWnull.trip_duration_min = none → rowWnull ∉ durationFilter [rowWnull]) ∧
    (([rowWnull] : List Row).map ratecodeNull).length = ([rowWnull] : List Row).length ∧
    (([rowWnull] : List Row).map paymentZeroNull).length = ([rowWnull] : List Row).length ∧
    (([rowWnull] : List Row).map capPassenger).length = ([rowWnull] : List Row).length ∧
    (([rowWnull] : List Row).map nullNegComponents).length = ([rowWnull] : List Row).length :=
  C2_null_policy_amended [rowWnull] rowWnull (by decide)

/-- C5 counterexample: for a row whose eight monetary components are all
missing, `_coalesce_sum` returns the value `0`, not a missing value: from the
second series on, the addend `s.fillna(0)` is never missing, so `fill_value=0`
fills every missing accumulator entry. -/
theorem C5_all_null_components_sum_zero :
    computedTotal rowNullComps = some 0 ∧ computedTotal rowNullComps ≠ none := by
  exact ⟨by decide, by decide⟩

/-- C5 amended: the recomputed total always carries a value: it equals the
plain sum of the eight monetary components with each null taken as 0 - in
particular it is the number 0 (not a missing value) when all eight components
are null. -/
theorem C5_coalesce_amended (r : Row) : computedTotal r = some (sumComponents r) := rfl

/-- C8: a raw trip source that cannot be located or parsed aborts the run
with a `DataSourceError` before any cleaning stage, and neither the clean
dataset nor the cleaning report artifact is produced. -/
theorem C8_fatal_read (raw : Option (List Row)) (zones : List ZoneRec)
    (h : raw = none) :
    runPipeline raw zones = Except.error DataSourceError.unreadableRaw ∧
    ∀ a : CleanArtifacts, runPipeline raw zones ≠ Except.ok a := by
  subst h
  exact ⟨rfl, fun a h => Except.noConfusion h⟩

theorem C8_fatal_read_witness :
    runPipeline none zonesEx = Except.error DataSourceError.unreadableRaw ∧
    ∀ a : CleanArtifacts, runPipeline none zonesEx ≠ Except.ok a :=
  C8_fatal_read none zonesEx rfl

/-- C10: a null payment type is treated as non-adjustment by both the
negative-fare and negative-total stages: such a row survives the stage iff
the filtered amount is null or non-negative, so a non-null negative amount
drops it, exactly as for payment types outside `{4, 6}`. -/
theorem C10_null_payment_nonadjustment (df : List Row) (r : Row) (hr : r ∈ df)
    (hp : r.payment_type = none) :
    nonAdjustment r = true ∧
    (r ∈ fareFilter df ↔ (∀ f, r.fare_amount = some f → 0 ≤ f)) ∧
    (r ∈ totalFilter df ↔ (∀ t, r.total_amount = some t → 0 ≤ t)) ∧
    (∀ f, r.fare_amount = some f → f < 0 → r ∉ fareFilter df) ∧
    (∀ t, r.total_amount = some t → t < 0 → r ∉ totalFilter df) := by
  have hna : nonAdjustment r = true := by simp [nonAdjustment, hp]
  have hfare : r ∈ fareFilter df ↔ (∀ f, r.fare_amount = some f → 0 ≤ f) := by
    rw [fareFilter, List.mem_filter]
    constructor
    · rintro ⟨-, hk⟩ f hf
      rw [fareKeep, hna] at hk
      simpa [hf] using hk
    · intro hall
      refine ⟨hr, ?_⟩
      rw [fareKeep, hna]
      cases hf : r.fare_amount with
      | none => simp
      | some f => simp [hall f hf]
  have htot : r ∈ totalFilter df ↔ (∀ t, r.total_amount = some t → 0 ≤ t) := by
    rw [totalFilter, List.mem_filter]
    constructor
    · rintro ⟨-, hk⟩ t ht
      rw [totalKeep, hna] at hk
      simpa [ht] using hk
    · intro hall
      refine ⟨hr, ?_⟩
      rw [totalKeep, hna]
      cases ht : r.total_amount with
      | none => simp
      | some t => simp [hall t ht]
  refine ⟨hna, hfare, htot, ?_, ?_⟩
  · intro f hf hneg hmem
    exact absurd (hfare.mp hmem f hf) (not_le.mpr hneg)
  · intro t ht hneg hmem
    exact absurd (htot.mp hmem t ht) (not_le.mpr hneg)

theorem C10_null_payment_witness :
    nonAdjustment rowPnull = true ∧
    (rowPnull ∈ fareFilter [rowPnull] ↔ (∀ f, rowPnull.fare_amount = some f → 0 ≤ f)) ∧
    (rowPnull ∈ totalFilter [rowPnull] ↔ (∀ t, rowPnull.total_amount = some t → 0 ≤ t)) ∧
    (∀ f, rowPnull.fare_amount = some f → f < 0 → rowPnull ∉ fareFilter [rowPnull]) ∧
    (∀ t, rowPnull.total_amount = some t → t < 0 → rowPnull ∉ totalFilter [rowPnull]) :=
  C10_null_payment_nonadjustment [rowPnull] rowPnull (by decide) (by decide)

/-- A raw row identical to `baseRow` except its stored total is 100 (the
components sum to 10, so reconciliation overwrites it). -/
def rowT100 : Row := { baseRow with total_amount := some 100 }

theorem mem_of_mem_dedupAux {r : Row} (seen : List DKey) (l : List Row)
    (h : r ∈ dedupAux seen l) : r ∈ l := by
  induction l generalizing seen with
  | nil => simp [dedupAux] at h
  | cons a t ih =>
    simp only [dedupAux] at h
    by_cases hm : dedupKey a ∈ seen
    · rw [if_pos hm] at h
      exact List.mem_cons_of_mem _ (ih _ h)
    · rw [if_neg hm] at h
      rcases List.mem_cons.mp h with rfl | h2
      · exact List.mem_cons_self _ _
      · exact List.mem_cons_of_mem _ (ih _ h2)

theorem dedupAux_length (seen : List DKey) (l : List Row) :
    (dedupAux seen l).length ≤ l.length := by
  induction l generalizing seen with
  | nil => simp [dedupAux]
  | cons a t ih =>
    simp only [dedupAux]
    by_cases hm : dedupKey a ∈ seen
    · rw [if_pos hm]
      exact le_trans (ih _) (Nat.le_succ _)
    · rw [if_neg hm]
      simpa using ih (dedupKey a :: seen)

theorem dedupAux_nodup (seen : List DKey) (l : List Row) :
    (∀ x ∈ dedupAux seen l, dedupKey x ∉ seen) ∧
    ((dedupAux seen l).Pairwise fun a b => dedupKey a ≠ dedupKey b) := by
  induction l generalizing seen with
  | nil => exact ⟨by intro x hx; simp [dedupAux] at hx, by simp [dedupAux]⟩
  | cons a t ih =>
    simp only [dedupAux]
    by_cases hm : dedupKey a ∈ seen
    · rw [if_pos hm]
      exact ih seen
    · rw [if_neg hm]
      obtain ⟨ih1, ih2⟩ := ih (dedupKey a :: seen)
      constructor
      · intro x hx
        rcases List.mem_cons.mp hx with rfl | hx2
        · exact hm
        · intro hs
          exact ih1 x hx2 (List.mem_cons_of_mem _ hs)
      · refine List.Pairwise.cons ?_ ih2
        intro b hb heq
        exact ih1 b hb (heq ▸ List.mem_cons_self _ _)

theorem dedupAux_filter_key (k : DKey) (l : List Row) :
    ∀ seen : List DKey,
      (dedupAux seen l).filter (fun r => decide (dedupKey r = k)) =
        if k ∈ seen then [] else (l.filter fun r => decide (dedupKey r = k)).take 1 := by
  induction l with
  | nil => intro seen; simp [dedupAux]
  | cons a t ih =>
    intro seen
    simp only [dedupAux]
    by_cases hm : dedupKey a ∈ seen
    · rw [if_pos hm, ih seen]
      by_cases hk : k ∈ seen
      · simp [hk]
      · have hak : ¬ dedupKey a = k := fun e => hk (e ▸ hm)
        simp [hk, List.filter_cons, hak]
    · rw [if_neg hm]
      by_cases hak : dedupKey a = k
      · subst hak
        rw [if_neg hm]
        have h1 : (dedupAux (dedupKey a :: seen) t).filter
            (fun r => decide (dedupKey r = dedupKey a)) = [] := by
          rw [ih (dedupKey a :: seen), if_pos (List.mem_cons_self _ _)]
        simp [List.filter_cons, h1]
      · have h2 : ((a :: dedupAux (dedupKey a :: seen) t).filter
            fun r => decide (dedupKey r = k)) =
            (dedupAux (dedupKey a :: seen) t).filter fun r => decide (dedupKey r = k) := by
          simp [List.filter_cons, hak]
        rw [h2, ih (dedupKey a :: seen)]
        have h3 : (k ∈ dedupKey a :: seen) ↔ k ∈ seen := by
          simp only [List.mem_cons, or_iff_right_iff_imp]
          intro e
          exact absurd e.symm hak
        by_cases hk : k ∈ seen
        · simp [hk, h3]
        · simp [hk, h3, List.filter_cons, hak]

theorem matches_len_le_one {zones : List ZoneRec}
    (hz : (zones.map ZoneRec.LocationID).Nodup) (p : Option Int) :
    (zones.filter fun z => decide (p = some z.LocationID)).length ≤ 1 := by
  induction zones with
  | nil => simp
  | cons z t ih =>
    rw [List.map_cons, List.nodup_cons] at hz
    by_cases hp : p = some z.LocationID
    · rw [List.filter_cons_of_pos (by simpa using hp)]
      have ht : (t.filter fun z2 => decide (p = some z2.LocationID)) = [] := by
        rw [List.filter_eq_nil_iff]
        intro z2 hz2
        simp only [decide_eq_true_eq]
        intro he
        apply hz.1
        have hid : z.LocationID = z2.LocationID := Option.some.inj (hp.symm.trans he)
        rw [hid]
        exact List.mem_map.mpr ⟨z2, hz2, rfl⟩
      rw [ht]
      simp
    · rw [List.filter_cons_of_neg (by simpa using hp)]
      exact ih hz.2

theorem joinRowPU_map_key {zones : List ZoneRec}
    (hz : (zones.map ZoneRec.LocationID).Nodup) (r : Row) :
    (joinRowPU zones r).map dedupKey = [dedupKey r] := by
  rw [joinRowPU]
  by_cases h : puMatches zones r = []
  · rw [if_pos h]
    rfl
  · rw [if_neg h]
    have hle : (puMatches zones r).length ≤ 1 := matches_len_le_one hz r.PULocationID
    rcases hms : puMatches zones r with _ | ⟨z, tl⟩
    · exact absurd hms h
    · rw [hms] at hle
      have : tl = [] := by
        cases tl with
        | nil => rfl
        | cons w tw => simp at hle
      subst this
      rfl

theorem joinRowDO_map_key {zones : List ZoneRec}
    (hz : (zones.map ZoneRec.LocationID).Nodup) (r : Row) :
    (joinRowDO zones r).map dedupKey = [dedupKey r] := by
  rw [joinRowDO]
  by_cases h : doMatches zones r = []
  · rw [if_pos h]
    rfl
  · rw [if_neg h]
    have hle : (doMatches zones r).length ≤ 1 := matches_len_le_one hz r.DOLocationID
    rcases hms : doMatches zones r with _ | ⟨z, tl⟩
    · exact absurd hms h
    · rw [hms] at hle
      have : tl = [] := by
        cases tl with
        | nil => rfl
        | cons w tw => simp at hle
      subst this
      rfl

theorem joinPU_map_key (df : List Row) {zones : List ZoneRec}
    (hz : (zones.map ZoneRec.LocationID).Nodup) :
    (joinPU df zones).map dedupKey = df.map dedupKey := by
  induction df with
  | nil => rfl
  | cons a t ih =>
    simp only [joinPU, List.map_append, ih, List.map_cons]
    rw [joinRowPU_map_key hz]
    rfl

theorem joinDO_map_key (df : List Row) {zones : List ZoneRec}
    (hz : (zones.map ZoneRec.LocationID).Nodup) :
    (joinDO df zones).map dedupKey = df.map dedupKey := by
  induction df with
  | nil => rfl
  | cons a t ih =>
    simp only [joinDO, List.map_append, ih, List.map_cons]
    rw [joinRowDO_map_key hz]
    rfl

theorem joinPU_length (df : List Row) {zones : List ZoneRec}
    (hz : (zones.map ZoneRec.LocationID).Nodup) :
    (joinPU df zones).length = df.length := by
  have h := congrArg List.length (joinPU_map_key df hz)
  simpa using h

theorem joinDO_length (df : List Row) {zones : List ZoneRec}
    (hz : (zones.map ZoneRec.LocationID).Nodup) :
    (joinDO df zones).length = df.length := by
  have h := congrArg List.length (joinDO_map_key df hz)
  simpa using h

theorem mem_joinPU {r2 : Row} (df : List Row) (zones : List ZoneRec)
    (h : r2 ∈ joinPU df zones) : ∃ r ∈ df, ∃ b z s, r2 = withPU r b z s := by
  induction df with
  | nil => simp [joinPU] at h
  | cons a t ih =>
    rw [joinPU] at h
    rcases List.mem_append.mp h with h1 | h2
    · refine ⟨a, List.mem_cons_self _ _, ?_⟩
      rw [joinRowPU] at h1
      by_cases he : puMatches zones a = []
      · rw [if_pos he] at h1
        rcases List.mem_singleton.mp h1 with rfl
        exact ⟨none, none, none, rfl⟩
      · rw [if_neg he] at h1
        rcases List.mem_map.mp h1 with ⟨z, _, rfl⟩
        exact ⟨z.Borough, z.Zone, z.service_zone, rfl⟩
    · rcases ih h2 with ⟨r, hr, hex⟩
      exact ⟨r, List.mem_cons_of_mem _ hr, hex⟩

theorem mem_joinDO {r2 : Row} (df : List Row) (zones : List ZoneRec)
    (h : r2 ∈ joinDO df zones) : ∃ r ∈ df, ∃ b z s, r2 = withDO r b z s := by
  induction df with
  | nil => simp [joinDO] at h
  | cons a t ih =>
    rw [joinDO] at h
    rcases List.mem_append.mp h with h1 | h2
    · refine ⟨a, List.mem_cons_self _ _, ?_⟩
      rw [joinRowDO] at h1
      by_cases he : doMatches zones a = []
      · rw [if_pos he] at h1
        rcases List.mem_singleton.mp h1 with rfl
        exact ⟨none, none, none, rfl⟩
      · rw [if_neg he] at h1
        rcases List.mem_map.mp h1 with ⟨z, _, rfl⟩
        exact ⟨z.Borough, z.Zone, z.service_zone, rfl⟩
    · rcases ih h2 with ⟨r, hr, hex⟩
      exact ⟨r, List.mem_cons_of_mem _ hr, hex⟩

/-- Provenance of every clean-output row: it is a pre-reconciliation survivor
with zone columns attached, the passenger count capped and the total
reconciled; all other columns are carried over unchanged. -/
theorem exists_fareTotal_source (df : List Row) (zones : List ZoneRec) (r : Row)
    (h : r ∈ cleanRows df zones) :
    ∃ v ∈ afterFareTotal df,
      r.tpep_pickup_datetime = v.tpep_pickup_datetime ∧
      r.tpep_dropoff_datetime = v.tpep_dropoff_datetime ∧
      r.trip_duration_min = v.trip_duration_min ∧
      r.trip_distance = v.trip_distance ∧
      r.payment_type = v.payment_type ∧
      r.fare_amount = v.fare_amount ∧
      r.extra = v.extra ∧
      r.mta_tax = v.mta_tax ∧
      r.tip_amount = v.tip_amount ∧
      r.tolls_amount = v.tolls_amount ∧
      r.improvement_surcharge = v.improvement_surcharge ∧
      r.congestion_surcharge = v.congestion_surcharge ∧
      r.airport_fee = v.airport_fee ∧
      r.total_amount = newTotal v := by
  have h1 : r ∈ zoneJoined df zones := (List.mem_filter.mp h).1
  rw [zoneJoined] at h1
  rcases mem_joinDO _ _ h1 with ⟨r1, hr1, b2, z2, s2, rfl⟩
  rcases mem_joinPU _ _ hr1 with ⟨r2, hr2, b1, z1, s1, rfl⟩
  rw [ruleEngine, dropDuplicates] at hr2
  have hr3 : r2 ∈ afterPassenger df := mem_of_mem_dedupAux _ _ hr2
  rw [afterPassenger] at hr3
  rcases List.mem_map.mp hr3 with ⟨r3, hr4, rfl⟩
  rw [afterReconcile] at hr4
  rcases List.mem_map.mp hr4 with ⟨v, hv, rfl⟩
  exact ⟨v, hv, rfl, rfl, rfl, rfl, rfl, rfl, rfl, rfl, rfl, rfl, rfl, rfl, rfl, rfl⟩

theorem exists_duration_source (df : List Row) (v : Row) (hv : v ∈ afterFareTotal df) :
    ∃ w ∈ afterDuration df,
      v.tpep_pickup_datetime = w.tpep_pickup_datetime ∧
      v.tpep_dropoff_datetime = w.tpep_dropoff_datetime ∧
      v.trip_duration_min = w.trip_duration_min := by
  have h0 : v ∈ fareFilter (afterComponents df) := (List.mem_filter.mp hv).1
  have h2 : v ∈ afterComponents df := (List.mem_filter.mp h0).1
  rw [afterComponents] at h2
  rcases List.mem_map.mp h2 with ⟨w, hw, rfl⟩
  rw [afterDistance] at hw
  have h3 : w ∈ negDistFilter (afterZeroZero df) := (List.mem_filter.mp hw).1
  have h4 : w ∈ afterZeroZero df := (List.mem_filter.mp h3).1
  rw [afterZeroZero] at h4
  have h5 : w ∈ afterDuration df := (List.mem_filter.mp h4).1
  exact ⟨w, h5, rfl, rfl, rfl⟩

theorem nnn_nonneg (o : Option ℚ) (x : ℚ) (h : nnnComp o = some x) : 0 ≤ x := by
  cases o with
  | none => simp [nnnComp] at h
  | some y =>
    simp only [nnnComp] at h
    by_cases hy : y < 0
    · rw [if_pos hy] at h
      exact absurd h (by simp)
    · rw [if_neg hy] at h
      obtain rfl : y = x := Option.some.inj h
      exact le_of_not_lt hy

/-- C3 counterexample: a disputed trip (payment type 4) with fare -5 survives
the whole pipeline with its fare still -5: the negative-component nulling loop
does not include `fare_amount`, and the negative-fare drop exempts adjustment
payments, so a surviving row does carry a negative monetary component. -/
theorem C3_negative_fare_survives :
    (cleanRows [rowAdj] zonesEx).map Row.fare_amount = [some (-5)] ∧
    (cleanRows [rowAdj] zonesEx).map Row.payment_type = [some 4] ∧
    ¬ (0:ℚ) ≤ -5 := by decide

/-- C3 amended: every surviving row has the seven surcharge components
(`extra` .. `airport_fee`) non-negative or null; `fare_amount` is
non-negative-or-null only on rows whose payment type is outside `{4, 6}` -
adjustment rows can retain a negative fare. -/
theorem C3_components_amended (df : List Row) (zones : List ZoneRec) (r : Row)
    (h : r ∈ cleanRows df zones) :
    (∀ x, r.extra = some x → 0 ≤ x) ∧
    (∀ x, r.mta_tax = some x → 0 ≤ x) ∧
    (∀ x, r.tip_amount = some x → 0 ≤ x) ∧
    (∀ x, r.tolls_amount = some x → 0 ≤ x) ∧
    (∀ x, r.improvement_surcharge = some x → 0 ≤ x) ∧
    (∀ x, r.congestion_surcharge = some x → 0 ≤ x) ∧
    (∀ x, r.airport_fee = some x → 0 ≤ x) ∧
    (r.payment_type ≠ some 4 → r.payment_type ≠ some 6 →
      ∀ x, r.fare_amount = some x → 0 ≤ x) := by
  rcases exists_fareTotal_source df zones r h with
    ⟨v, hv, -, -, -, -, hpay, hfare, hex, hmta, htip, htol, himp, hcon, hair, -⟩
  have h1 : v ∈ fareFilter (afterComponents df) := (List.mem_filter.mp hv).1
  have hfk : fareKeep v = true := (List.mem_filter.mp h1).2
  have h2 : v ∈ afterComponents df := (List.mem_filter.mp h1).1
  rw [afterComponents] at h2
  rcases List.mem_map.mp h2 with ⟨w, -, rfl⟩
  refine ⟨?_, ?_, ?_, ?_, ?_, ?_, ?_, ?_⟩
  · intro x hx
    exact nnn_nonneg w.extra x (hex.symm.trans hx)
  · intro x hx
    exact nnn_nonneg w.mta_tax x (hmta.symm.trans hx)
  · intro x hx
    exact nnn_nonneg w.tip_amount x (htip.symm.trans hx)
  · intro x hx
    exact nnn_nonneg w.tolls_amount x (htol.symm.trans hx)
  · intro x hx
    exact nnn_nonneg w.improvement_surcharge x (himp.symm.trans hx)
  · intro x hx
    exact nnn_nonneg w.congestion_surcharge x (hcon.symm.trans hx)
  · intro x hx
    exact nnn_nonneg w.airport_fee x (hair.symm.trans hx)
  · intro h4 h6 x hx
    have hp4 : ¬ (nullNegComponents w).payment_type = some 4 := by
      rw [← hpay]; exact h4
    have hp6 : ¬ (nullNegComponents w).payment_type = some 6 := by
      rw [← hpay]; exact h6
    have hna : nonAdjustment (nullNegComponents w) = true := by
      simp [nonAdjustment, hp4, hp6]
    rw [fareKeep, hna] at hfk
    have hvf : (nullNegComponents w).fare_amount = some x := hfare ▸ hx
    rw [hvf] at hfk
    simpa using hfk

theorem C3_components_witness :
    (∀ x, outBase.extra = some x → 0 ≤ x) ∧
    (∀ x, outBase.mta_tax = some x → 0 ≤ x) ∧
    (∀ x, outBase.tip_amount = some x → 0 ≤ x) ∧
    (∀ x, outBase.tolls_amount = some x → 0 ≤ x) ∧
    (∀ x, outBase.improvement_surcharge = some x → 0 ≤ x) ∧
    (∀ x, outBase.congestion_surcharge = some x → 0 ≤ x) ∧
    (∀ x, outBase.airport_fee = some x → 0 ≤ x) ∧
    (outBase.payment_type ≠ some 4 → outBase.payment_type ≠ some 6 →
      ∀ x, outBase.fare_amount = some x → 0 ≤ x) :=
  C3_components_amended [baseRow] zonesEx outBase (by decide)

/-- C4 counterexample: a surviving row whose stored total is null is never
overwritten (the `NA` entry of the mismatch mask selects nothing), so the
clean output contains a row with a null total and components summing to 100,
violating the 0.01 reconciliation tolerance with nulls taken as 0. -/
theorem C4_null_total_not_overwritten :
    (cleanRows [rowTnull] zonesEx).map Row.total_amount = [none] ∧
    (cleanRows [rowTnull] zonesEx).map computedTotal = [some 100] ∧
    ¬ |(0:ℚ) - 100| ≤ 1/100 := by decide

/-- C4 amended: on every surviving row whose total is non-null, the total is
within 0.01 of the component sum with nulls as 0 (mismatching non-null totals
are overwritten with the recomputed sum); the reconciliation stage retains
every row, but a row whose stored total is null is left unchanged - null
totals are not overwritten. -/
theorem C4_total_reconciliation_amended (df : List Row) (zones : List ZoneRec)
    (r : Row) (h : r ∈ cleanRows df zones) :
    (∀ t, r.total_amount = some t → |t - sumComponents r| ≤ 1/100) ∧
    (∀ s : Row, s.total_amount = none → reconcileTotal s = s) ∧
    (afterReconcile df).length = (afterFareTotal df).length := by
  refine ⟨?_, ?_, by rw [afterReconcile, List.length_map]⟩
  · intro t ht
    rcases exists_fareTotal_source df zones r h with
      ⟨v, -, -, -, -, -, -, hfare, hex, hmta, htip, htol, himp, hcon, hair, htot⟩
    have hsum : sumComponents r = sumComponents v := by
      rw [sumComponents, sumComponents, hfare, hex, hmta, htip, htol, himp, hcon, hair]
    rw [ht] at htot
    rw [hsum]
    rcases hvt : v.total_amount with _ | t0
    · have hnone : newTotal v = none := by
        rw [newTotal, hvt]
      rw [hnone] at htot
      exact absurd htot (by simp)
    · have hnt : newTotal v =
          if 1/100 < |t0 - sumComponents v| then some (sumComponents v) else some t0 := by
        rw [newTotal, computedTotal_eq_sum, hvt]
      rw [hnt] at htot
      by_cases hm : 1/100 < |t0 - sumComponents v|
      · rw [if_pos hm] at htot
        obtain rfl := Option.some.inj htot
        simp
      · rw [if_neg hm] at htot
        obtain rfl := Option.some.inj htot
        exact le_of_not_lt hm
  · intro s hs
    have hnt : newTotal s = s.total_amount := by
      rw [newTotal, hs]
    rw [reconcileTotal, hnt]

theorem C4_total_reconciliation_witness :
    (∀ t, outBase.total_amount = some t → |t - sumComponents outBase| ≤ 1/100) ∧
    (∀ s : Row, s.total_amount = none → reconcileTotal s = s) ∧
    (afterReconcile [rowT100]).length = (afterFareTotal [rowT100]).length :=
  C4_total_reconciliation_amended [rowT100] zonesEx outBase (by decide)

/-- C9: every row of the clean output has both timestamps present and a
present trip duration in `[0, 1440]` minutes: rows with an unparseable
timestamp get a missing duration, which the duration filter drops, and the
earlier dropoff-before-pickup filter excludes negative durations. -/
theorem C9_duration_invariant (df : List Row) (zones : List ZoneRec) (r : Row)
    (h : r ∈ cleanRows df zones) :
    r.tpep_pickup_datetime.isSome = true ∧ r.tpep_dropoff_datetime.isSome = true ∧
    ∃ m, r.trip_duration_min = some m ∧ 0 ≤ m ∧ m ≤ 24 * 60 := by
  rcases exists_fareTotal_source df zones r h with
    ⟨v, hv, hpk, hdo, hdur, -, -, -, -, -, -, -, -, -, -, -⟩
  rcases exists_duration_source df v hv with ⟨w, hw, hpk2, hdo2, hdur2⟩
  rw [afterDuration] at hw
  have hk : durationKeep w = true := (List.mem_filter.mp hw).2
  have hmm := (List.mem_filter.mp hw).1
  rcases List.mem_map.mp hmm with ⟨x, hx, rfl⟩
  have hb : (!badOrder x) = true := (List.mem_filter.mp hx).2
  rcases hxp : x.tpep_pickup_datetime with _ | p
  · rw [durationKeep] at hk
    simp [computeDuration, hxp] at hk
  · rcases hxd : x.tpep_dropoff_datetime with _ | d
    · rw [durationKeep] at hk
      simp [computeDuration, hxp, hxd] at hk
    · have hdm : (computeDuration x).trip_duration_min = some ((d - p) / 60) := by
        simp [computeDuration, hxp, hxd]
      have hle : (d - p) / 60 ≤ 24 * 60 := by
        rw [durationKeep, hdm] at hk
        simpa using hk
      have hple : p ≤ d := by
        rw [badOrder, hxp, hxd] at hb
        have : ¬ d < p := by simpa using hb
        exact le_of_not_lt this
      have hnn : (0:ℚ) ≤ (d - p) / 60 :=
        div_nonneg (sub_nonneg.mpr hple) (by norm_num)
      have hpk3 : (computeDuration x).tpep_pickup_datetime = some p := hxp
      have hdo3 : (computeDuration x).tpep_dropoff_datetime = some d := hxd
      refine ⟨?_, ?_, (d - p) / 60, ?_, hnn, hle⟩
      · rw [hpk, hpk2, hpk3]
        rfl
      · rw [hdo, hdo2, hdo3]
        rfl
      · rw [hdur, hdur2, hdm]

theorem C9_duration_witness :
    outBase.tpep_pickup_datetime.isSome = true ∧
    outBase.tpep_dropoff_datetime.isSome = true ∧
    ∃ m, outBase.trip_duration_min = some m ∧ 0 ≤ m ∧ m ≤ 24 * 60 :=
  C9_duration_invariant [baseRow] zonesEx outBase (by decide)

/-- C6: after deduplication no two surviving rows share the eight-field key;
within any key group exactly the first occurrence in original order is kept;
and, with the zone reference mapping each location id to at most one record
(as the spec's data model states), the zone joins and the unmapped-row drop
preserve this duplicate-freedom into the final output. -/
theorem C6_dedup_first_kept (df : List Row) (zones : List ZoneRec)
    (hz : (zones.map ZoneRec.LocationID).Nodup) :
    ((dropDuplicates df).Pairwise fun a b => dedupKey a ≠ dedupKey b) ∧
    (∀ k : DKey, (dropDuplicates df).filter (fun r => decide (dedupKey r = k)) =
        (df.filter fun r => decide (dedupKey r = k)).take 1) ∧
    ((cleanRows df zones).Pairwise fun a b => dedupKey a ≠ dedupKey b) := by
  refine ⟨(dedupAux_nodup [] df).2, ?_, ?_⟩
  · intro k
    rw [dropDuplicates, dedupAux_filter_key]
    simp
  · have h1 : (ruleEngine df).Pairwise (fun a b => dedupKey a ≠ dedupKey b) :=
      (dedupAux_nodup [] (afterPassenger df)).2
    have h2 : ((joinPU (ruleEngine df) zones).map dedupKey).Pairwise Ne := by
      rw [joinPU_map_key _ hz]
      exact List.pairwise_map.mpr h1
    have h3 : (joinPU (ruleEngine df) zones).Pairwise
        (fun a b => dedupKey a ≠ dedupKey b) := List.pairwise_map.mp h2
    have h4 : ((joinDO (joinPU (ruleEngine df) zones) zones).map dedupKey).Pairwise Ne := by
      rw [joinDO_map_key _ hz]
      exact List.pairwise_map.mpr h3
    have h5 : (joinDO (joinPU (ruleEngine df) zones) zones).Pairwise
        (fun a b => dedupKey a ≠ dedupKey b) := List.pairwise_map.mp h4
    exact List.Pairwise.sublist (List.filter_sublist _) h5

theorem C6_dedup_first_kept_witness :
    ((dropDuplicates [baseRow]).Pairwise fun a b => dedupKey a ≠ dedupKey b) ∧
    (∀ k : DKey, (dropDuplicates [baseRow]).filter (fun r => decide (dedupKey r = k)) =
        (([baseRow] : List Row).filter fun r => decide (dedupKey r = k)).take 1) ∧
    ((cleanRows [baseRow] zonesEx).Pairwise fun a b => dedupKey a ≠ dedupKey b) :=
  C6_dedup_first_kept [baseRow] zonesEx (by decide)

/-- C7 counterexample: against a zone reference holding two records for the
same location id, the pickup left-join emits two rows for one input row -
the row count after the join stage exceeds the count before it. -/
theorem C7_join_increases_rows :
    (joinPU [baseRow] zonesDup).length = 2 ∧
    ¬ (joinPU [baseRow] zonesDup).length ≤ ([baseRow] : List Row).length := by
  constructor
  · rfl
  · decide

/-- C7 amended: every Rule Engine stage leaves the row count unchanged or
lowers it; the two zone left-joins preserve the row count exactly when the
zone reference has at most one record per location id (duplicate location
ids multiply rows), and the unmapped-zone drop only removes rows. -/
theorem C7_monotone_amended (df : List Row) (zones : List ZoneRec)
    (hz : (zones.map ZoneRec.LocationID).Nodup) :
    (df.map normFlag).length = df.length ∧
    (vendorFilter df).length ≤ df.length ∧
    (df.map ratecodeNull).length = df.length ∧
    (df.map paymentZeroNull).length = df.length ∧
    (orderFilter df).length ≤ df.length ∧
    (df.map computeDuration).length = df.length ∧
    (durationFilter df).length ≤ df.length ∧
    (zeroZeroFilter df).length ≤ df.length ∧
    (negDistFilter df).length ≤ df.length ∧
    (bigDistFilter df).length ≤ df.length ∧
    (df.map nullNegComponents).length = df.length ∧
    (fareFilter df).length ≤ df.length ∧
    (totalFilter df).length ≤ df.length ∧
    (df.map reconcileTotal).length = df.length ∧
    (df.map capPassenger).length = df.length ∧
    (dropDuplicates df).length ≤ df.length ∧
    (joinPU df zones).length = df.length ∧
    (joinDO df zones).length = df.length ∧
    (unmappedFilter df).length ≤ df.length := by
  refine ⟨by simp, List.length_filter_le _ _, by simp, by simp,
    List.length_filter_le _ _, by simp, List.length_filter_le _ _,
    List.length_filter_le _ _, List.length_filter_le _ _, List.length_filter_le _ _,
    by simp, List.length_filter_le _ _, List.length_filter_le _ _, by simp, by simp,
    dedupAux_length [] df, joinPU_length df hz, joinDO_length df hz,
    List.length_filter_le _ _⟩

theorem C7_monotone_witness :
    (([baseRow] : List Row).map normFlag).length = ([baseRow] : List Row).length ∧
    (vendorFilter [baseRow]).length ≤ ([baseRow] : List Row).length ∧
    (([baseRow] : List Row).map ratecodeNull).length = ([baseRow] : List Row).length ∧
    (([baseRow] : List Row).map paymentZeroNull).length = ([baseRow] : List Row).length ∧
    (orderFilter [baseRow]).length ≤ ([baseRow] : List Row).length ∧
    (([baseRow] : List Row).map computeDuration).length = ([baseRow] : List Row).length ∧
    (durationFilter [baseRow]).length ≤ ([baseRow] : List Row).length ∧
    (zeroZeroFilter [baseRow]).length ≤ ([baseRow] : List Row).length ∧
    (negDistFilter [baseRow]).length ≤ ([baseRow] : List Row).length ∧
    (bigDistFilter [baseRow]).length ≤ ([baseRow] : List Row).length ∧
    (([baseRow] : List Row).map nullNegComponents).length = ([baseRow] : List Row).length ∧
    (fareFilter [baseRow]).length ≤ ([baseRow] : List Row).length ∧
    (totalFilter [baseRow]).length ≤ ([baseRow] : List Row).length ∧
    (([baseRow] : List Row).map reconcileTotal).length = ([baseRow] : List Row).length ∧
    (([baseRow] : List Row).map capPassenger).length = ([baseRow] : List Row).length ∧
    (dropDuplicates [baseRow]).length ≤ ([baseRow] : List Row).length ∧
    (joinPU [baseRow] zonesEx).length = ([baseRow] : List Row).length ∧
    (joinDO [baseRow] zonesEx).length = ([baseRow] : List Row).length ∧
    (unmappedFilter [baseRow]).length ≤ ([baseRow] : List Row).length :=
  C7_monotone_amended [baseRow] zonesEx (by decide)
